import Mathlib

/-!
Verification of the Roolts sandboxed execution engine against its design
document.

The development shallowly embeds the two execution paths of the backend:

* `execute_code` — the ephemeral one-shot executor of
  `src/backend/routes/executor.py` (`POST /execute`).  Subprocess behaviour
  is supplied by an oracle `Nat → ProcOutcome` giving the outcome of the
  n-th `subprocess.run` call of the request; the filesystem is a list of
  existing directories; every spawned process is recorded in a trace so
  that "step never invoked" properties are statable.
* `TerminalSession.execute` — the persistent terminal session of
  `src/backend/routes/terminal.py`, with the host filesystem queries
  (`os.path.isabs`, `os.path.isdir`, …) supplied by an `FsOracle` and the
  wall clock (`time.time()`) passed as an argument.
* `sessionExecute` / `validate` — the container-backed Session Command
  Service and Command Risk Validator, which are not present under the
  backend sources (only their spec and an HTTP test caller exist); they
  are modelled from the spec.
-/

/-- Outcome of one `subprocess.run` invocation, as seen by the caller:
normal completion (with captured stdout/stderr, return code, and the
wall-clock seconds the child consumed — the last is never inspected by
the code, it exists so that timeout-budget claims are statable),
`subprocess.TimeoutExpired` (with whatever output had been buffered when
the child was killed), or any other exception (`str(e)`). -/
inductive ProcOutcome where
  | ok (stdout stderr : String) (returncode : Int) (elapsed : Nat)
  | timedout (bufOut bufErr : String)
  | fault (msg : String)
deriving Repr, DecidableEq

/-- One recorded `subprocess.run` call: argument vector, working
directory, and the `timeout=` parameter passed to it. -/
structure SpawnedProc where
  argv : List String
  cwd : String
  timeoutSec : Nat
deriving Repr, DecidableEq

/-- The JSON body + HTTP status produced by the `/execute` route.  The
route's bodies always carry `success` and `error`; `output` is present
only on the normal completion paths, which is modelled by `Option`. -/
structure ExecResponse where
  status : Nat
  success : Bool
  output : Option String
  error : String
deriving Repr, DecidableEq

/-- Test whether the char list `n` is an initial segment of `h`. -/
def isPfx : List Char → List Char → Bool
  | [], _ => true
  | _ :: _, [] => false
  | a :: as, b :: bs => a == b && isPfx as bs

/-- Test whether the char list `n` occurs contiguously inside `h`. -/
def hasSub (needle : List Char) : List Char → Bool
  | [] => isPfx needle []
  | c :: rest => isPfx needle (c :: rest) || hasSub needle rest

/-- Substring containment on strings (Python's `needle in hay`). -/
def strContains (hay needle : String) : Bool :=
  hasSub needle.toList hay.toList

/-- The whitespace class `\s` of the package regex (ASCII part: space,
tab, newline, carriage return, form feed, vertical tab). -/
def isWs (c : Char) : Bool :=
  c == ' ' || c == '\t' || c == '\n' || c == '\r' || c == '\x0c' || c == '\x0b'

/-- The character class `[a-zA-Z0-9_.]` of the package regex. -/
def isIdentChar (c : Char) : Bool :=
  ('a' ≤ c && c ≤ 'z') || ('A' ≤ c && c ≤ 'Z') || ('0' ≤ c && c ≤ '9') ||
    c == '_' || c == '.'

/-- Consume the literal `lit` from the front of `cs`. -/
def matchLit : List Char → List Char → Option (List Char)
  | [], cs => some cs
  | l :: ls, c :: cs => if l == c then matchLit ls cs else Option.none
  | _ :: _, [] => Option.none

/-- Attempt the body of `^\s*package\s+([a-zA-Z0-9_.]+)\s*;` at one anchor
position (the `^` itself is handled by the caller), returning capture
group 1.  Every quantified class here is disjoint from what follows it,
so greedy maximal munch is exact — no backtracking can occur. -/
def matchPackageAt (cs : List Char) : Option String :=
  let cs1 := cs.dropWhile isWs
  match matchLit ['p', 'a', 'c', 'k', 'a', 'g', 'e'] cs1 with
  | Option.none => Option.none
  | some cs2 =>
    match cs2 with
    | [] => Option.none
    | c :: _ =>
      if isWs c then
        let cs3 := cs2.dropWhile isWs
        let ident := cs3.takeWhile isIdentChar
        let cs4 := cs3.dropWhile isIdentChar
        if ident.isEmpty then Option.none
        else
          match cs4.dropWhile isWs with
          | ';' :: _ => some (String.mk ident)
          | _ => Option.none
      else Option.none

/-- Anchors after the start of the string: try the pattern right after
every newline, in order. -/
def searchPackageAux : List Char → Option String
  | [] => Option.none
  | c :: cs =>
    if c == '\n' then
      match matchPackageAt cs with
      | some p => some p
      | Option.none => searchPackageAux cs
    else searchPackageAux cs

/-- The search `re.search(r'^\s*package\s+([a-zA-Z0-9_.]+)\s*;', code,
re.MULTILINE)`: with `re.MULTILINE`, `^` matches at the start of the string and right
after every newline; `re.search` returns the match at the leftmost such
anchor, and we return its capture group 1. -/
def javaPackageSearch (code : String) : Option String :=
  let cs := code.toList
  match matchPackageAt cs with
  | some p => some p
  | Option.none => searchPackageAux cs

/-- Python `os.path.splitext(s)[0]`: drop the extension, which starts at the last
dot of the final path component provided some earlier character of that
component is not a dot (so dotfiles such as `.java` have no extension).
Both `/` and `\` are treated as component separators. -/
def splitextRoot (s : String) : String :=
  let rev := s.toList.reverse
  let baseRev := rev.takeWhile (fun c => c != '/' && c != '\\')
  let extRevLen := (baseRev.takeWhile (fun c => c != '.')).length
  if extRevLen < baseRev.length then
    let beforeDot := baseRev.drop (extRevLen + 1)
    if beforeDot.any (fun c => c != '.') then
      String.mk ((rev.drop (extRevLen + 1)).reverse)
    else s
  else s

/-- The `/execute` route of `src/backend/routes/executor.py`.

Inputs mirror the JSON body (`data.get` defaults: a missing `code` or
`filename` is the empty string, a missing `language` is `"python"` —
callers of the embedding pass the defaulted values).  `tempDir` is the
unique directory name produced by `tempfile.mkdtemp`; `oracle n` is the
outcome of the n-th `subprocess.run` of this request; `fs` is the set of
existing directories, as a list.  Returns the response, the trace of
spawned processes, and the final filesystem.  `shutil.rmtree` in the
`finally` block is modelled as succeeding (its own failure is swallowed
by the code); `sys.executable` is modelled as `"python"`; the source
file write goes inside `tempDir` and is not tracked separately. -/
def execute_code (code language filename : String) (tempDir : String)
    (oracle : Nat → ProcOutcome) (fs : List String) :
    ExecResponse × List SpawnedProc × List String :=
  if code == "" then
    ({status := 400, success := false, output := Option.none,
      error := "No code provided"}, [], fs)
  else
    let fs1 := tempDir :: fs
    let fsEnd := fs1.filter (fun d => d != tempDir)
    if language == "python" then
      let fname := if filename != "" && filename.endsWith ".py" then filename
                   else "script.py"
      let proc : SpawnedProc :=
        {argv := ["python", "-u", tempDir ++ "/" ++ fname], cwd := tempDir,
         timeoutSec := 60}
      match oracle 0 with
      | ProcOutcome.ok out err rc _ =>
        ({status := 200, success := rc == 0, output := some out, error := err},
         [proc], fsEnd)
      | ProcOutcome.timedout _ _ =>
        ({status := 408, success := false, output := Option.none,
          error := "Execution timed out (60s limit)"}, [proc], fsEnd)
      | ProcOutcome.fault m =>
        ({status := 500, success := false, output := Option.none, error := m},
         [proc], fsEnd)
    else if language == "javascript" || language == "js" then
      let fname := if filename != "" && filename.endsWith ".js" then filename
                   else "script.js"
      let proc : SpawnedProc :=
        {argv := ["node", tempDir ++ "/" ++ fname], cwd := tempDir,
         timeoutSec := 60}
      match oracle 0 with
      | ProcOutcome.ok out err rc _ =>
        ({status := 200, success := rc == 0, output := some out, error := err},
         [proc], fsEnd)
      | ProcOutcome.timedout _ _ =>
        ({status := 408, success := false, output := Option.none,
          error := "Execution timed out (60s limit)"}, [proc], fsEnd)
      | ProcOutcome.fault m =>
        ({status := 500, success := false, output := Option.none, error := m},
         [proc], fsEnd)
    else if language == "java" then
      let fname := if filename != "" then
                     (if filename.endsWith ".java" then filename
                      else filename ++ ".java")
                   else "Main.java"
      let className := splitextRoot fname
      let fullClassName := match javaPackageSearch code with
        | some p => p ++ "." ++ className
        | Option.none => className
      let cproc : SpawnedProc :=
        {argv := ["javac", "-d", ".", fname], cwd := tempDir, timeoutSec := 60}
      match oracle 0 with
      | ProcOutcome.ok cout cerr crc _ =>
        if crc != 0 then
          ({status := 200, success := false, output := some cout,
            error := "Compilation Error:\n" ++ cerr}, [cproc], fsEnd)
        else
          let rproc : SpawnedProc :=
            {argv := ["java", fullClassName], cwd := tempDir, timeoutSec := 60}
          match oracle 1 with
          | ProcOutcome.ok rout rerr rrc _ =>
            ({status := 200, success := rrc == 0, output := some rout,
              error := rerr}, [cproc, rproc], fsEnd)
          | ProcOutcome.timedout _ _ =>
            ({status := 408, success := false, output := Option.none,
              error := "Execution timed out (60s limit)"}, [cproc, rproc], fsEnd)
          | ProcOutcome.fault m =>
            ({status := 500, success := false, output := Option.none,
              error := m}, [cproc, rproc], fsEnd)
      | ProcOutcome.timedout _ _ =>
        ({status := 408, success := false, output := Option.none,
          error := "Execution timed out (60s limit)"}, [cproc], fsEnd)
      | ProcOutcome.fault m =>
        ({status := 500, success := false, output := Option.none, error := m},
         [cproc], fsEnd)
    else
      ({status := 400, success := false, output := Option.none,
        error := "Unsupported language: " ++ language}, [], fsEnd)

/-- Python `str.strip()` (ASCII whitespace model): drop leading and
trailing whitespace. -/
def pyStrip (s : String) : String :=
  String.mk (((s.toList.dropWhile isWs).reverse.dropWhile isWs).reverse)

/-- Python `str.lower()` on one character (ASCII model). -/
def pyLowerChar (c : Char) : Char :=
  if 'A' ≤ c && c ≤ 'Z' then Char.ofNat (c.toNat + 32) else c

/-- Python `str.lower()` (ASCII model). -/
def pyLower (s : String) : String := String.mk (s.toList.map pyLowerChar)

/-- Python `s.startswith(p)`. -/
def strStartsWith (s p : String) : Bool := isPfx p.toList s.toList

/-- Python `s[n:]` (character slicing). -/
def strDropChars (s : String) (n : Nat) : String :=
  String.mk (s.toList.drop n)

/-- One entry of a terminal session's `history` list (terminal.py appends
one per command that reaches the subprocess and completes, with
`'timestamp': time.time()`). -/
structure HistEntry where
  command : String
  output : String
  error : String
  cwd : String
  timestamp : Nat
deriving Repr, DecidableEq

/-- The mutable state of a `TerminalSession`: its working directory and
its history. -/
structure TermSession where
  working_dir : String
  history : List HistEntry
deriving Repr, DecidableEq

/-- The dict returned by `TerminalSession.execute`.  The `cd` branches and
the exception branches return dicts without an `exitCode` key, modelled
as `Option.none`; `error` is `None` on the happy `cd` path and on a
normal run with empty stderr. -/
structure TermResult where
  success : Bool
  output : String
  error : Option String
  cwd : String
  exitCode : Option Int
deriving Repr, DecidableEq

/-- The host filesystem queries `TerminalSession.execute` makes
(`os.path` functions), supplied as an oracle. -/
structure FsOracle where
  isAbs : String → Bool
  isDir : String → Bool
  dirname : String → String
  abspath : String → String
  joinPath : String → String → String

/-- The method `TerminalSession.execute` of `src/backend/routes/terminal.py`.

`fsys` answers the `os.path` queries, `outcome` is the result of the one
`subprocess.run(['powershell', ...])` call (unused on the `cd` paths),
and `t` is the value `time.time()` would return during this call.
Returns the result dict and the updated session. -/
def TerminalSession.execute (fsys : FsOracle) (outcome : ProcOutcome)
    (t : Nat) (s : TermSession) (command : String) :
    TermResult × TermSession :=
  let stripped := pyStrip command
  if strStartsWith (pyLower stripped) "cd " then
    let new_dir := pyStrip (strDropChars stripped 3)
    if new_dir == ".." then
      ({success := true, output := "", error := Option.none,
        cwd := fsys.dirname s.working_dir, exitCode := Option.none},
       {s with working_dir := fsys.dirname s.working_dir})
    else if fsys.isAbs new_dir then
      if fsys.isDir new_dir then
        ({success := true, output := "", error := Option.none,
          cwd := new_dir, exitCode := Option.none},
         {s with working_dir := new_dir})
      else
        -- absent `else`: control falls through to the success return with
        -- the working directory untouched
        ({success := true, output := "", error := Option.none,
          cwd := s.working_dir, exitCode := Option.none}, s)
    else
      let potential_path := fsys.joinPath s.working_dir new_dir
      if fsys.isDir potential_path then
        ({success := true, output := "", error := Option.none,
          cwd := fsys.abspath potential_path, exitCode := Option.none},
         {s with working_dir := fsys.abspath potential_path})
      else
        ({success := false, output := "",
          error := some ("The system cannot find the path specified: "
                          ++ new_dir),
          cwd := s.working_dir, exitCode := Option.none}, s)
  else
    match outcome with
    | ProcOutcome.ok out err rc _ =>
      let entry : HistEntry :=
        {command := command, output := out, error := err,
         cwd := s.working_dir, timestamp := t}
      ({success := rc == 0, output := out,
        error := if err == "" then Option.none else some err,
        cwd := s.working_dir, exitCode := some rc},
       {s with history := s.history ++ [entry]})
    | ProcOutcome.timedout _ _ =>
      ({success := false, output := "",
        error := some "Command timed out after 120 seconds",
        cwd := s.working_dir, exitCode := Option.none}, s)
    | ProcOutcome.fault m =>
      ({success := false, output := "", error := some m,
        cwd := s.working_dir, exitCode := Option.none}, s)

/-- Run a sequence of commands against one session; each list element is
(command, subprocess outcome, clock reading at that call). -/
def runCommands (fsys : FsOracle) :
    TermSession → List (String × ProcOutcome × Nat) → TermSession
  | s, [] => s
  | s, (c, o, t) :: rest =>
    runCommands fsys (TerminalSession.execute fsys o t s c).2 rest

/-- The sequence of access times a session's bookkeeping has recorded
(the `timestamp` fields of its history, oldest first); its last element
plays the role the spec calls `lastAccessedAt`. -/
def accessTimes (s : TermSession) : List Nat :=
  s.history.map HistEntry.timestamp

/-- Severity levels of a `ValidationVerdict` (spec §3: none, warn,
block; `none` is spelled `safe` to avoid clashing with `Option.none`). -/
inductive Severity where
  | safe
  | warn
  | block
deriving Repr, DecidableEq

/-- Modelled from the spec: the `ValidationVerdict` record of §3 — the
Command Risk Validator's output. -/
structure ValidationVerdict where
  isSafe : Bool
  severity : Severity
  reason : Option String
deriving Repr, DecidableEq

/-- Modelled from the spec: the §4.5 minimum block ruleset — destructive
filesystem operations on root-like paths, privilege escalation,
fork-bomb patterns, outbound network scanning — as substring patterns
with human-readable reasons. -/
def blockedRules : List (String × String) :=
  [("rm -rf /", "destructive filesystem operation on a root-like path"),
   ("sudo ", "privilege-escalation attempt"),
   (":()\x7b :|:& \x7d;:", "fork-bomb pattern"),
   ("nmap ", "outbound network scanning")]

/-- Modelled from the spec: `validate(commandText) -> ValidationVerdict`
(§4.5), a pure function of the command text over a static denylist;
first matching rule wins, otherwise the command is safe. -/
def validate (commandText : String) : ValidationVerdict :=
  match blockedRules.find? (fun r => strContains commandText r.1) with
  | some r => {isSafe := false, severity := Severity.block, reason := some r.2}
  | Option.none =>
    {isSafe := true, severity := Severity.safe, reason := Option.none}

/-- Modelled from the spec: the environment status values of §3. -/
inductive EnvStatus where
  | provisioning
  | running
  | stopped
  | errored
deriving Repr, DecidableEq

/-- Modelled from the spec: the persistent `VirtualEnvironment` record
of §3. -/
structure VirtualEnvironment where
  id : Nat
  ownerAccountId : Nat
  containerRef : Nat
  status : EnvStatus
  createdAt : Nat
  lastAccessedAt : Nat
deriving Repr, DecidableEq

/-- Modelled from the spec: the outcomes of one session command (§4.7 and
the §7 error taxonomy). -/
inductive SessionOutcome where
  | noEnvironmentFound
  | commandBlocked (reason : Option String)
  | execResult (stdout stderr : String) (exitCode : Int)
      (env : VirtualEnvironment)
  | sessionTimedOut
  | infraError (msg : String)
deriving Repr, DecidableEq

/-- Modelled from the spec: the Session Command Service orchestration of
§4.7 — resolve the environment, validate the command, and only then
cross the exec boundary; on a successful exec touch `lastAccessedAt`.
`envOpt` is the environment the Lifecycle Manager resolved for the
account (`Option.none` = none exists); `execOracle` is the outcome of
the container-exec call; `now` is the current time.  The second
component of the result is the trace of command strings actually passed
to the exec primitive. -/
def sessionExecute (envOpt : Option VirtualEnvironment) (cmd : String)
    (execOracle : ProcOutcome) (now : Nat) :
    SessionOutcome × List String :=
  match envOpt with
  | Option.none => (SessionOutcome.noEnvironmentFound, [])
  | some env =>
    let verdict := validate cmd
    if verdict.severity = Severity.block then
      (SessionOutcome.commandBlocked verdict.reason, [])
    else
      match execOracle with
      | ProcOutcome.ok out err rc _ =>
        (SessionOutcome.execResult out err rc
          {env with lastAccessedAt := now}, [cmd])
      | ProcOutcome.timedout _ _ => (SessionOutcome.sessionTimedOut, [cmd])
      | ProcOutcome.fault m => (SessionOutcome.infraError m, [cmd])

/-- C10: a request whose `code` field is missing or empty is answered
with HTTP 400 and `{success: false, error: 'No code provided'}` before
any workspace directory is created (the filesystem is returned
unchanged) and before any process is spawned (the trace is empty), for
every language value. -/
theorem C10_no_code_provided (language filename tempDir : String)
    (oracle : Nat → ProcOutcome) (fs : List String) :
    execute_code "" language filename tempDir oracle fs =
      ({status := 400, success := false, output := Option.none,
        error := "No code provided"}, [], fs) := rfl

/-- On every path with nonempty code, the route's `finally` block leaves
the filesystem as it was after removing the request's temporary
directory. -/
theorem exec_fs_final (code language filename tempDir : String)
    (oracle : Nat → ProcOutcome) (fs : List String) (hcode : code ≠ "") :
    (execute_code code language filename tempDir oracle fs).2.2 =
      (tempDir :: fs).filter (fun d => d != tempDir) := by
  have hc : (code == "") = false := beq_eq_false_iff_ne.mpr hcode
  unfold execute_code
  simp only [hc, Bool.false_eq_true, if_false]
  repeat' split
  all_goals rfl

/-- C2: for every ephemeral request (success, compile failure, runtime
failure, timeout, or injected runner fault — all represented by the
oracle), the temporary workspace directory no longer exists in the
filesystem returned to the caller. -/
theorem C2_workspace_cleanup (code language filename tempDir : String)
    (oracle : Nat → ProcOutcome) (fs : List String) (hcode : code ≠ "") :
    tempDir ∉ (execute_code code language filename tempDir oracle fs).2.2 := by
  rw [exec_fs_final code language filename tempDir oracle fs hcode]
  simp [List.mem_filter]

/-- Witness for C2 at a concrete successful request. -/
theorem C2_workspace_cleanup_witness :
    "/tmp/roolts_exec_w" ∉ (execute_code "print(2+2)" "python" ""
      "/tmp/roolts_exec_w" (fun _ => ProcOutcome.ok "4\n" "" 0 1) []).2.2 :=
  C2_workspace_cleanup "print(2+2)" "python" "" "/tmp/roolts_exec_w"
    (fun _ => ProcOutcome.ok "4\n" "" 0 1) [] (by decide)

/-- C3: when the Java compile step exits nonzero, the run step is never
invoked (every spawned process is the `javac` step), and the result has
`success=false`, `output` = the compiler's stdout, and `error` = the
compiler's stderr prefixed with `"Compilation Error:\n"`. -/
theorem C3_compile_gate (code filename tempDir : String)
    (oracle : Nat → ProcOutcome) (fs : List String)
    (cout cerr : String) (crc : Int) (ce : Nat)
    (hcode : code ≠ "") (hcomp : oracle 0 = ProcOutcome.ok cout cerr crc ce)
    (hfail : crc ≠ 0) :
    (execute_code code "java" filename tempDir oracle fs).1 =
      {status := 200, success := false, output := some cout,
       error := "Compilation Error:\n" ++ cerr} ∧
    ∀ p ∈ (execute_code code "java" filename tempDir oracle fs).2.1,
      p.argv.head? = some "javac" := by
  have hc : (code == "") = false := beq_eq_false_iff_ne.mpr hcode
  have hcrc : (crc != 0) = true := bne_iff_ne.mpr hfail
  simp [execute_code, hc, hcomp, hcrc]

/-- Witness for C3: a concrete Java submission whose compiler exits 2. -/
theorem C3_compile_gate_witness :
    (execute_code "class A \x7b" "java" "" "/w"
        (fun _ => ProcOutcome.ok "" "err: expected \x7d" 2 1) []).1 =
      {status := 200, success := false, output := some "",
       error := "Compilation Error:\n" ++ "err: expected \x7d"} ∧
    ∀ p ∈ (execute_code "class A \x7b" "java" "" "/w"
        (fun _ => ProcOutcome.ok "" "err: expected \x7d" 2 1) []).2.1,
      p.argv.head? = some "javac" :=
  C3_compile_gate "class A \x7b" "" "/w" _ [] "" "err: expected \x7d" 2 1
    (by decide) rfl (by decide)

/-- C4 counterexample: a Python request whose child is killed at the
60-second limit with `"partial stdout"` already buffered.  The route
answers 408 with `success=false` and the fixed message, but the response
body has no output field at all — the buffered partial output is
discarded, contradicting the claim that it is still returned. -/
theorem C4_counterexample_partial_output_discarded :
    (execute_code "while True: print(1)" "python" "" "/w"
        (fun _ => ProcOutcome.timedout "partial stdout" "") []).1 =
      {status := 408, success := false, output := Option.none,
       error := "Execution timed out (60s limit)"} ∧
    (execute_code "while True: print(1)" "python" "" "/w"
        (fun _ => ProcOutcome.timedout "partial stdout" "") []).1.output ≠
      some "partial stdout" := by
  constructor
  · rfl
  · decide

/-- C4 (amended): a timed-out execution is reported as a distinct HTTP
408 status with `success=false` and error `"Execution timed out (60s
limit)"`; the response carries no output, timed-out flag, or exit code —
buffered partial output is discarded.  The first part covers a timeout
of the first spawned step of each supported language; the second covers
a Java run-step timeout after a successful compile. -/
theorem C4_timeout_response (code filename tempDir : String)
    (fs : List String) (hcode : code ≠ "") :
    (∀ lang, lang = "python" ∨ lang = "javascript" ∨ lang = "js" ∨
        lang = "java" →
      ∀ oracle : Nat → ProcOutcome,
        (∀ n, ∃ po pe, oracle n = ProcOutcome.timedout po pe) →
        (execute_code code lang filename tempDir oracle fs).1 =
          {status := 408, success := false, output := Option.none,
           error := "Execution timed out (60s limit)"}) ∧
    (∀ oracle : Nat → ProcOutcome, ∀ cout cerr ce bo be,
      oracle 0 = ProcOutcome.ok cout cerr 0 ce →
      oracle 1 = ProcOutcome.timedout bo be →
      (execute_code code "java" filename tempDir oracle fs).1 =
        {status := 408, success := false, output := Option.none,
         error := "Execution timed out (60s limit)"}) := by
  have hc : (code == "") = false := beq_eq_false_iff_ne.mpr hcode
  constructor
  · intro lang hlang oracle horacle
    obtain ⟨po, pe, h0⟩ := horacle 0
    rcases hlang with h | h | h | h <;> subst h <;>
      simp [execute_code, hc, h0]
  · intro oracle cout cerr ce bo be h0 h1
    simp [execute_code, hc, h0, h1]

/-- Witness for C4 (amended) at a concrete always-timing-out request. -/
theorem C4_timeout_response_witness :
    (execute_code "while True: pass" "python" "" "/w"
        (fun _ => ProcOutcome.timedout "" "") []).1 =
      {status := 408, success := false, output := Option.none,
       error := "Execution timed out (60s limit)"} :=
  (C4_timeout_response "while True: pass" "" "/w" [] (by decide)).1
    "python" (Or.inl rfl) (fun _ => ProcOutcome.timedout "" "")
    (fun _ => ⟨"", "", rfl⟩)

/-- C5 counterexample: a Java request whose compile step consumes 30 of
the request's 60 configured seconds.  Were the wall-clock timeout split
between the phases, the run step would be spawned with the remaining 30
seconds; instead both steps are spawned with `timeout=60` — each
`subprocess.run` call in executor.py passes a fresh full 60-second
timeout, so a compiled request may consume up to 120 seconds. -/
theorem C5_counterexample_no_timeout_split :
    ((execute_code "class A \x7b\x7d" "java" "" "/w"
        (fun n => if n == 0 then ProcOutcome.ok "" "" 0 30
                  else ProcOutcome.ok "" "" 0 1) []).2.1.map
      SpawnedProc.timeoutSec = [60, 60]) ∧ (60 : Nat) ≠ 60 - 30 := by
  constructor
  · rfl
  · decide

/-- C5 (amended): there is no timeout split — every spawned step of every
request (interpreted run, Java compile, Java run) is passed the same
full fixed 60-second timeout. -/
theorem C5_fixed_timeout_per_step (code language filename tempDir : String)
    (oracle : Nat → ProcOutcome) (fs : List String) :
    ∀ p ∈ (execute_code code language filename tempDir oracle fs).2.1,
      p.timeoutSec = 60 := by
  unfold execute_code
  repeat' split
  all_goals intro p hp
  all_goals simp only [List.mem_cons, List.mem_singleton, List.not_mem_nil,
    or_false] at hp
  all_goals first
    | exact hp.elim
    | (obtain rfl := hp; rfl)
    | ((obtain rfl | rfl := hp) <;> rfl)

/-- Witness for C5 (amended): the run step of a concrete Java request
whose compile step already used half the budget still gets 60 seconds. -/
theorem C5_fixed_timeout_per_step_witness :
    ({argv := ["java", "Main"], cwd := "/w", timeoutSec := 60} :
      SpawnedProc).timeoutSec = 60 :=
  C5_fixed_timeout_per_step "class A \x7b\x7d" "java" "" "/w"
    (fun n => if n == 0 then ProcOutcome.ok "" "" 0 30
              else ProcOutcome.ok "" "" 0 1) []
    {argv := ["java", "Main"], cwd := "/w", timeoutSec := 60} (by decide)

/-- The claim's derivation of the Java source file name: the
caller-supplied filename normalized to end in `.java` when one is
supplied, the fixed default `Main.java` otherwise. -/
def claimJavaFileName (filename : String) : String :=
  if filename == "" then "Main.java"
  else if filename.endsWith ".java" then filename
  else filename ++ ".java"

/-- The claim's derivation of the Java run target: `<package>.<base>`
when a package declaration is found by pattern search over the source
text, the bare base name (file name without extension) otherwise. -/
def claimJavaRunTarget (code filename : String) : String :=
  match javaPackageSearch code with
  | some p => p ++ "." ++ splitextRoot (claimJavaFileName filename)
  | Option.none => splitextRoot (claimJavaFileName filename)

/-- C6: for every Java submission that compiles, the compile step is
invoked on exactly the file name the claim describes and the run step
on exactly the run target the claim describes. -/
theorem C6_java_naming (code filename tempDir : String)
    (oracle : Nat → ProcOutcome) (fs : List String)
    (cout cerr rout rerr : String) (rrc : Int) (ce re : Nat)
    (hcode : code ≠ "")
    (hcomp : oracle 0 = ProcOutcome.ok cout cerr 0 ce)
    (hrun : oracle 1 = ProcOutcome.ok rout rerr rrc re) :
    (execute_code code "java" filename tempDir oracle fs).2.1 =
      [{argv := ["javac", "-d", ".", claimJavaFileName filename],
        cwd := tempDir, timeoutSec := 60},
       {argv := ["java", claimJavaRunTarget code filename],
        cwd := tempDir, timeoutSec := 60}] := by
  have hc : (code == "") = false := beq_eq_false_iff_ne.mpr hcode
  by_cases hf : filename = ""
  · subst hf
    simp [execute_code, hc, hcomp, hrun, claimJavaFileName,
      claimJavaRunTarget]
  · have hf' : (filename != "") = true := bne_iff_ne.mpr hf
    have hf'' : (filename == "") = false := beq_eq_false_iff_ne.mpr hf
    by_cases he : filename.endsWith ".java" = true
    · simp [execute_code, hc, hcomp, hrun, claimJavaFileName,
        claimJavaRunTarget, hf', hf'', he]
    · simp [execute_code, hc, hcomp, hrun, claimJavaFileName,
        claimJavaRunTarget, hf', hf'', he]

/-- Witness for C6 at a concrete package-bearing Java submission with an
explicit filename missing its extension. -/
theorem C6_java_naming_witness :
    (execute_code "package com.app;\nclass Tool \x7b\x7d" "java" "Tool"
        "/w" (fun n => if n == 0 then ProcOutcome.ok "" "" 0 1
                       else ProcOutcome.ok "ran" "" 0 1) []).2.1 =
      [{argv := ["javac", "-d", ".", claimJavaFileName "Tool"],
        cwd := "/w", timeoutSec := 60},
       {argv := ["java", claimJavaRunTarget
          "package com.app;\nclass Tool \x7b\x7d" "Tool"],
        cwd := "/w", timeoutSec := 60}] :=
  C6_java_naming "package com.app;\nclass Tool \x7b\x7d" "Tool" "/w"
    (fun n => if n == 0 then ProcOutcome.ok "" "" 0 1
              else ProcOutcome.ok "ran" "" 0 1) []
    "" "" "ran" "" 0 1 1 (by decide) rfl rfl

/-- C7: when the run step completes, `success = (exitCode == 0)`,
`output` is the captured stdout and `error` the captured stderr, and the
HTTP status is 200 even for a nonzero exit — a failing user program is
not a transport-level error.  The first part covers the single run step
of the interpreted languages, the second the Java run step after a
successful compile. -/
theorem C7_exit_code_mapping (code filename tempDir : String)
    (fs : List String) (oracle : Nat → ProcOutcome)
    (out err : String) (rc : Int) (e : Nat) (hcode : code ≠ "") :
    (∀ lang, lang = "python" ∨ lang = "javascript" ∨ lang = "js" →
      oracle 0 = ProcOutcome.ok out err rc e →
      (execute_code code lang filename tempDir oracle fs).1 =
        {status := 200, success := rc == 0, output := some out,
         error := err}) ∧
    (∀ cout cerr ce, oracle 0 = ProcOutcome.ok cout cerr 0 ce →
      oracle 1 = ProcOutcome.ok out err rc e →
      (execute_code code "java" filename tempDir oracle fs).1 =
        {status := 200, success := rc == 0, output := some out,
         error := err}) := by
  have hc : (code == "") = false := beq_eq_false_iff_ne.mpr hcode
  constructor
  · intro lang hlang h0
    rcases hlang with h | h | h <;> subst h <;> simp [execute_code, hc, h0]
  · intro cout cerr ce h0 h1
    simp [execute_code, hc, h0, h1]

/-- Witness for C7: a concrete Python run exiting 3 with output on both
streams is a 200 response with `success=false`. -/
theorem C7_exit_code_mapping_witness :
    (execute_code "import sys; sys.exit(3)" "python" "" "/w"
        (fun _ => ProcOutcome.ok "out" "boom" 3 1) []).1 =
      {status := 200, success := (3 : Int) == 0, output := some "out",
       error := "boom"} :=
  (C7_exit_code_mapping "import sys; sys.exit(3)" "" "/w" []
      (fun _ => ProcOutcome.ok "out" "boom" 3 1) "out" "boom" 3 1
      (by decide)).1 "python" (Or.inl rfl) rfl

/-- C9: a `cd` to an absolute path that is not an existing directory
falls through to the success return — `{success: true, output: '',
error: None}` with the working directory unchanged — whereas a `cd` to a
relative path to a nonexistent directory returns `success=false` with a
cannot-find-path error; the session state is unchanged in both cases. -/
theorem C9_cd_nonexistent (fsys : FsOracle) (outcome : ProcOutcome)
    (t : Nat) (s : TermSession) (cmd : String)
    (hcd : strStartsWith (pyLower (pyStrip cmd)) "cd " = true)
    (hne : pyStrip (strDropChars (pyStrip cmd) 3) ≠ "..") :
    (fsys.isAbs (pyStrip (strDropChars (pyStrip cmd) 3)) = true →
      fsys.isDir (pyStrip (strDropChars (pyStrip cmd) 3)) = false →
      TerminalSession.execute fsys outcome t s cmd =
        ({success := true, output := "", error := Option.none,
          cwd := s.working_dir, exitCode := Option.none}, s)) ∧
    (fsys.isAbs (pyStrip (strDropChars (pyStrip cmd) 3)) = false →
      fsys.isDir (fsys.joinPath s.working_dir (pyStrip (strDropChars (pyStrip cmd) 3)))
        = false →
      TerminalSession.execute fsys outcome t s cmd =
        ({success := false, output := "",
          error := some ("The system cannot find the path specified: "
                          ++ pyStrip (strDropChars (pyStrip cmd) 3)),
          cwd := s.working_dir, exitCode := Option.none}, s)) := by
  have hne' : ((pyStrip (strDropChars (pyStrip cmd) 3)) == "..") = false :=
    beq_eq_false_iff_ne.mpr hne
  constructor
  · intro habs hdir
    simp [TerminalSession.execute, hcd, hne', habs, hdir]
  · intro habs hdir
    simp [TerminalSession.execute, hcd, hne', habs, hdir]

/-- A concrete host filesystem oracle for the C9 witness: rooted paths
are absolute and no directory exists. -/
def wFs : FsOracle :=
  {isAbs := fun p => strStartsWith p "/", isDir := fun _ => false,
   dirname := fun p => p, abspath := fun p => p,
   joinPath := fun a b => a ++ "/" ++ b}

/-- Witness for C9: `cd /nope` against a session at `/home` with no
such directory succeeds vacuously and leaves the session unchanged. -/
theorem C9_cd_nonexistent_witness :
    TerminalSession.execute wFs (ProcOutcome.ok "" "" 0 1) 7
        {working_dir := "/home", history := []} "cd /nope" =
      ({success := true, output := "", error := Option.none,
        cwd := "/home", exitCode := Option.none},
       {working_dir := "/home", history := []}) :=
  (C9_cd_nonexistent wFs (ProcOutcome.ok "" "" 0 1) 7
      {working_dir := "/home", history := []} "cd /nope"
      (by decide) (by decide)).1 (by decide) (by decide)

/-- One terminal command either leaves the recorded access times
unchanged (`cd`, timeout, fault) or appends the current clock reading
(any completed subprocess run, whatever its exit code). -/
theorem accessTimes_execute (fsys : FsOracle) (o : ProcOutcome) (t : Nat)
    (s : TermSession) (c : String) :
    accessTimes (TerminalSession.execute fsys o t s c).2 = accessTimes s ∨
    accessTimes (TerminalSession.execute fsys o t s c).2 =
      accessTimes s ++ [t] := by
  by_cases hcd : strStartsWith (pyLower (pyStrip c)) "cd " = true
  · left
    unfold TerminalSession.execute
    rw [if_pos hcd]
    dsimp only
    repeat' split
    all_goals rfl
  · unfold TerminalSession.execute
    rw [if_neg hcd]
    cases o with
    | ok out err rc e => right; simp [accessTimes]
    | timedout a b => left; rfl
    | fault m => left; rfl

/-- The access times recorded after a command sequence form a sublist of
the prior access times followed by the sequence's clock readings. -/
theorem accessTimes_runCommands_sublist (fsys : FsOracle) :
    ∀ (steps : List (String × ProcOutcome × Nat)) (s : TermSession),
      List.Sublist (accessTimes (runCommands fsys s steps))
        (accessTimes s ++ steps.map (fun st => st.2.2))
  | [], s => by simp [runCommands]
  | (c, o, t) :: rest, s => by
    have ih := accessTimes_runCommands_sublist fsys rest
      (TerminalSession.execute fsys o t s c).2
    simp only [runCommands, List.map_cons]
    rcases accessTimes_execute fsys o t s c with h | h
    · rw [h] at ih
      exact ih.trans (List.Sublist.append_left
        (List.sublist_cons_self t (rest.map (fun st => st.2.2))) _)
    · rw [h, List.append_assoc, List.singleton_append] at ih
      exact ih

/-- C8: with a non-decreasing clock, the recorded access-time sequence
of a terminal session stays non-decreasing across any sequence of
commands; and every command that reaches the subprocess and completes —
whatever its exit code — appends the current clock reading (the
session's new last access time). -/
theorem C8_access_time_monotone (fsys : FsOracle) (s : TermSession)
    (steps : List (String × ProcOutcome × Nat))
    (hsorted : List.Sorted (fun a b => a ≤ b)
      (accessTimes s ++ steps.map (fun st => st.2.2))) :
    List.Sorted (fun a b => a ≤ b)
      (accessTimes (runCommands fsys s steps)) ∧
    ∀ (cmd out err : String) (rc : Int) (e t : Nat) (s0 : TermSession),
      strStartsWith (pyLower (pyStrip cmd)) "cd " = false →
      accessTimes (TerminalSession.execute fsys
        (ProcOutcome.ok out err rc e) t s0 cmd).2 =
        accessTimes s0 ++ [t] := by
  constructor
  · exact List.Pairwise.sublist
      (accessTimes_runCommands_sublist fsys steps s) hsorted
  · intro cmd out err rc e t s0 hncd
    simp [TerminalSession.execute, accessTimes, hncd]

/-- Witness for C8: two commands (exit 0 then exit 2) at clock readings
3 then 5 yield the non-decreasing access-time sequence [3, 5]. -/
theorem C8_access_time_monotone_witness :
    List.Sorted (fun a b => a ≤ b) (accessTimes (runCommands wFs
      {working_dir := "/home", history := []}
      [("ls", ProcOutcome.ok "a" "" 0 1, 3),
       ("pip install x", ProcOutcome.ok "" "fail" 2 1, 5)])) :=
  (C8_access_time_monotone wFs {working_dir := "/home", history := []}
    [("ls", ProcOutcome.ok "a" "" 0 1, 3),
     ("pip install x", ProcOutcome.ok "" "fail" 2 1, 5)] (by decide)).1

/-- C1: a command the validator classifies with `severity=block` is
never passed to the exec primitive — the session path short-circuits
with an empty exec trace — and each of the minimum destructive
categories (root-path recursive delete, privilege escalation, fork
bomb, network scan) is indeed classified `block`. -/
theorem C1_blocked_never_execs (envOpt : Option VirtualEnvironment)
    (cmd : String) (execOracle : ProcOutcome) (now : Nat)
    (hblock : (validate cmd).severity = Severity.block) :
    (sessionExecute envOpt cmd execOracle now).2 = [] ∧
    (validate "rm -rf /").severity = Severity.block ∧
    (validate "sudo cat /etc/shadow").severity = Severity.block ∧
    (validate ":()\x7b :|:& \x7d;:").severity = Severity.block ∧
    (validate "nmap -sS 10.0.0.0/24").severity = Severity.block := by
  refine ⟨?_, by decide, by decide, by decide, by decide⟩
  cases envOpt with
  | none => rfl
  | some env => simp [sessionExecute, hblock]

/-- Witness for C1: `rm -rf /` against a running environment reaches no
exec call. -/
theorem C1_blocked_never_execs_witness :
    (sessionExecute
      (some {id := 1, ownerAccountId := 1, containerRef := 1,
             status := EnvStatus.running, createdAt := 0,
             lastAccessedAt := 0})
      "rm -rf /" (ProcOutcome.ok "" "" 0 1) 5).2 = [] :=
  (C1_blocked_never_execs
    (some {id := 1, ownerAccountId := 1, containerRef := 1,
           status := EnvStatus.running, createdAt := 0,
           lastAccessedAt := 0})
    "rm -rf /" (ProcOutcome.ok "" "" 0 1) 5 (by decide)).1
